import Mathlib

/-!
Shallow embedding of the TaskFlow front-end's role-based access and
authentication model, translated from:

  * src/contexts/AuthContext.tsx  (active revision, lines 221 ff.)
  * src/services/api.ts           (authAPI, taskAPI.getTaskStats, handleApiError)
  * src/components/auth/LoginForm.tsx (handleSubmit)
  * src/types/index.ts            (Dashboard components and stats aggregation)
  * src/utils/transform.ts        (transformBackendUser)

JavaScript strings are Lean `String`; timestamps (`Date` values) are `Nat`;
optional / possibly-`undefined` fields are `Option`; JavaScript's
truthiness-based `a || b` on strings is modelled explicitly (empty string
and `undefined` are falsy).  Backend responses are passed in as explicit
oracle values, and network activity is recorded as an explicit trace of
endpoint paths.
-/

namespace TaskFlow

/-- JavaScript `a || b` for strings: `a` unless it is empty. -/
def jsOr (a b : String) : String := if a = "" then b else a

/-- JavaScript `a || b` where `a` may be `undefined`: falsy when absent or empty. -/
def jsOrO (a : Option String) (b : String) : String :=
  match a with
  | some s => jsOr s b
  | none => b

/-- Result of a backend call, as seen by the client: either a payload or an error. -/
inductive ApiResult (α : Type) where
  | ok (value : α)
  | err (msg : String)
deriving Repr, DecidableEq

/-- Whether an `ApiResult` is a success. -/
def ApiResult.isOk {α : Type} : ApiResult α → Bool
  | .ok _ => true
  | .err _ => false

/-! ## Data model: backend user payload and front-end user (src/utils/transform.ts) -/

/-- Backend user payload (the `UserResponse` shape consumed by `transformBackendUser`). -/
structure UserResponse where
  id : Nat
  email : String
  username : String
  full_name : Option String
  is_active : Bool
  role : String
  can_assign_tasks : Option Bool
  created_at : Nat
  last_login_at : Option Nat
  avatar_url : Option String
  company_id : Option Nat
deriving Repr, DecidableEq

/-- Front-end `User` shape (src/types/index.ts). -/
structure User where
  id : String
  name : String
  email : String
  role : String
  avatar : String
  canAssignTasks : Bool
  isActive : Bool
  createdAt : Nat
  lastLogin : Nat
  company_id : Option Nat
  username : String
deriving Repr, DecidableEq

/-- Hexadecimal digit character (uppercase), for percent-encoding. -/
def hexDigit (n : Nat) : Char :=
  if n < 10 then Char.ofNat (48 + n) else Char.ofNat (55 + n)

/-- Percent-encoding of one byte, e.g. 32 ↦ "%20". -/
def pctByte (b : Nat) : String :=
  "%" ++ String.singleton (hexDigit (b / 16)) ++ String.singleton (hexDigit (b % 16))

/-- UTF-8 byte sequence of a code point. -/
def utf8Bytes (n : Nat) : List Nat :=
  if n < 128 then [n]
  else if n < 2048 then [192 + n / 64, 128 + n % 64]
  else if n < 65536 then [224 + n / 4096, 128 + (n / 64) % 64, 128 + n % 64]
  else [240 + n / 262144, 128 + (n / 4096) % 64, 128 + (n / 64) % 64, 128 + n % 64]

/-- Characters `encodeURIComponent` leaves unescaped: alphanumerics and - _ . ! ~ * ( ) and the apostrophe (code 39). -/
def isUnreservedURI (c : Char) : Bool :=
  c.isAlpha || c.isDigit || [45, 95, 46, 33, 126, 42, 39, 40, 41].contains c.toNat

/-- JavaScript `encodeURIComponent`: percent-encodes every character outside the unreserved set, via UTF-8. -/
def encodeURIComponent (s : String) : String :=
  s.data.foldl
    (fun acc c =>
      acc ++ (if isUnreservedURI c then String.singleton c
              else String.join ((utf8Bytes c.toNat).map pctByte)))
    ""

/-- `transformBackendUser` (src/utils/transform.ts).  `now` stands for the
`new Date()` taken when `last_login_at` is absent. -/
def transformBackendUser (now : Nat) (backendUser : UserResponse) : User :=
  { id := toString backendUser.id
    name := jsOrO backendUser.full_name
      (jsOr backendUser.username ((backendUser.email.splitOn "@").headD ""))
    email := backendUser.email
    role := backendUser.role
    avatar := jsOrO backendUser.avatar_url
      ("https://ui-avatars.com/api/?name="
        ++ encodeURIComponent (jsOr backendUser.username "User")
        ++ "&background=random")
    canAssignTasks := backendUser.can_assign_tasks.getD false
      || backendUser.role == "super_admin" || backendUser.role == "admin"
    isActive := backendUser.is_active
    createdAt := backendUser.created_at
    lastLogin := backendUser.last_login_at.getD now
    company_id := backendUser.company_id
    username := backendUser.username }

/-! ## Role/Permission Table and Access Guard (src/contexts/AuthContext.tsx) -/

/-- `ROLE_PERMISSIONS` (AuthContext.tsx lines 274-278). -/
def ROLE_PERMISSIONS : List (String × List String) :=
  [("super_admin", ["manage_companies", "manage_all_users", "view_dashboard"]),
   ("admin", ["manage_company_users", "manage_company_tasks", "view_dashboard"]),
   ("user", ["view_own_tasks", "update_own_tasks", "view_dashboard"])]

/-- `ROUTE_ACCESS` (AuthContext.tsx lines 280-284). -/
def ROUTE_ACCESS : List (String × List String) :=
  [("/dashboard", ["super_admin", "admin", "user"]),
   ("/users", ["super_admin", "admin"]),
   ("/companies", ["super_admin"])]

/-- `AuthState` held by the provider. -/
structure AuthState where
  user : Option User
  isAuthenticated : Bool
  isLoading : Bool
deriving Repr, DecidableEq

/-- `ROLE_PERMISSIONS[role] || []` — the permission list used by `hasPermission`. -/
def rolePermsOf (role : String) : List String :=
  (ROLE_PERMISSIONS.lookup role).getD []

/-- `hasPermission` (AuthContext.tsx lines 396-400). -/
def hasPermission (authState : AuthState) (permission : String) : Bool :=
  match authState.user with
  | none => false
  | some u => (rolePermsOf u.role).contains permission

/-- `canAccessRoute` (AuthContext.tsx lines 402-408). -/
def canAccessRoute (authState : AuthState) (route : String) : Bool :=
  match authState.user with
  | none => false
  | some u =>
    match ROUTE_ACCESS.lookup route with
    | none => true
    | some allowedRoles => allowedRoles.contains u.role

/-! Sample concrete sessions used by the witnesses. -/

/-- A concrete authenticated session with role "user". -/
def sampleUserU : User :=
  { id := "7", name := "Dana", email := "dana@x.com", role := "user"
    avatar := "", canAssignTasks := false, isActive := true
    createdAt := 0, lastLogin := 0, company_id := some 3, username := "dana" }

/-- Session wrapping `sampleUserU`. -/
def sampleUserSession : AuthState :=
  { user := some sampleUserU, isAuthenticated := true, isLoading := false }

/-- A concrete user whose role "company" has no entry in `ROLE_PERMISSIONS`. -/
def sampleCompanyU : User :=
  { sampleUserU with id := "9", role := "company", username := "acme" }

/-- Session wrapping `sampleCompanyU`. -/
def sampleCompanySession : AuthState :=
  { user := some sampleCompanyU, isAuthenticated := true, isLoading := false }

/-- The unauthenticated session. -/
def unauthSession : AuthState :=
  { user := none, isAuthenticated := false, isLoading := false }

/-! ## Session Store and Authentication Flow (src/contexts/AuthContext.tsx, src/services/api.ts) -/

/-- Structured backend error, as read by `handleApiError`: an optional
`response.data.detail`, an optional `response.data.message`, and the
exception's own `message`. -/
structure ApiErr where
  detail : Option String
  message : Option String
  errMessage : Option String
deriving Repr, DecidableEq

/-- `handleApiError` (src/services/api.ts, final revision): detail, else
response message, else exception message, else a fixed fallback, with
JavaScript truthiness (empty strings are falsy). -/
def handleApiError (e : ApiErr) : String :=
  jsOrO e.detail (jsOrO e.message (jsOrO e.errMessage "An unexpected error occurred"))

/-- Payload of `/login` and `/company-login`: token and user, each possibly
missing from a malformed response. -/
structure LoginResponse where
  access_token : Option String
  user : Option UserResponse
deriving Repr, DecidableEq

/-- Client-side state: the two durable storage slots (`access_token` and the
serialized `auth` profile) plus the in-memory `AuthState`. -/
structure ClientState where
  storage_access_token : Option String
  storage_auth : Option User
  authState : AuthState
deriving Repr, DecidableEq

/-- Result object returned to the caller of `login` / `companyLogin`. -/
structure LoginOutcome where
  success : Bool
  error : Option String
deriving Repr, DecidableEq

/-- `commonLoginLogic` (AuthContext.tsx lines 315-324): transform the backend
user, persist token and profile, and set an authenticated state. -/
def commonLoginLogic (now : Nat) (accessToken : String) (userData : UserResponse)
    (_s : ClientState) : ClientState :=
  let user := transformBackendUser now userData
  { storage_access_token := some accessToken
    storage_auth := some user
    authState := { user := some user, isAuthenticated := true, isLoading := false } }

/-- Failure exit shared by `login` and `companyLogin`: only `isLoading` is
reset; durable storage and the current user are untouched. -/
def loginFailureState (s : ClientState) : ClientState :=
  { s with authState := { s.authState with isLoading := false } }

/-- `login` (AuthContext.tsx lines 326-342).  The backend call
`authAPI.login` is the oracle argument. -/
def login (now : Nat) (response : ApiResult LoginResponse) (s : ClientState) :
    LoginOutcome × ClientState :=
  match response with
  | .err m => ({ success := false, error := some (handleApiError ⟨none, none, some m⟩) },
      loginFailureState s)
  | .ok r =>
    match r.access_token, r.user with
    | some tok, some u => ({ success := true, error := none }, commonLoginLogic now tok u s)
    | _, _ =>
      ({ success := false,
         error := some (handleApiError
           ⟨none, none, some "Invalid response structure: missing access_token or user"⟩) },
       loginFailureState s)

/-- `companyLogin` (AuthContext.tsx lines 345-373): on a well-formed response
the returned user's role is overwritten with "admin" before
`commonLoginLogic` runs; a response missing token or user throws and is
handled as a failure. -/
def companyLogin (now : Nat) (response : ApiResult LoginResponse) (s : ClientState) :
    LoginOutcome × ClientState :=
  match response with
  | .err m => ({ success := false, error := some (handleApiError ⟨none, none, some m⟩) },
      loginFailureState s)
  | .ok r =>
    match r.access_token, r.user with
    | some tok, some u =>
      let forcedUser : UserResponse := { u with role := "admin" }
      ({ success := true, error := none }, commonLoginLogic now tok forcedUser s)
    | _, _ =>
      ({ success := false,
         error := some (handleApiError
           ⟨none, none, some "Invalid response from server - missing token or user data"⟩) },
       loginFailureState s)

/-- `logout` (AuthContext.tsx lines 375-380): clear both storage slots, reset
the state, and navigate; the second component is the `window.location.href`
target. -/
def logout (_s : ClientState) : ClientState × String :=
  ({ storage_access_token := none
     storage_auth := none
     authState := { user := none, isAuthenticated := false, isLoading := false } },
   "/login")

/-- `initializeAuth` (AuthContext.tsx lines 294-314): with a stored token,
revalidate via `authAPI.getCurrentUser` (the oracle argument) — persisting the
fresh profile on success, clearing both storage slots on failure; with no
stored token, set an unauthenticated state without touching storage and
without consulting the backend. -/
def initAuth (now : Nat) (getCurrentUser : ApiResult UserResponse) (s : ClientState) :
    ClientState :=
  match s.storage_access_token with
  | some _ =>
    match getCurrentUser with
    | .ok resp =>
      let user := transformBackendUser now resp
      { s with storage_auth := some user
               authState := { user := some user, isAuthenticated := true, isLoading := false } }
    | .err _ =>
      { storage_access_token := none
        storage_auth := none
        authState := { user := none, isAuthenticated := false, isLoading := false } }
  | none =>
    { s with authState := { user := none, isAuthenticated := false, isLoading := false } }

/-- `authAPI.login` (src/services/api.ts lines 65-91): builds the form data
and posts to `/login` unconditionally; a well-formed success passes through,
a response missing `access_token` or `user` becomes an error.  The first
component is the trace of endpoint paths requested during the call. -/
def authAPI_login (_email _password : String) (backend : ApiResult LoginResponse) :
    List String × ApiResult LoginResponse :=
  (["/login"],
   match backend with
   | .err m => .err m
   | .ok d =>
     match d.access_token, d.user with
     | some _, some _ => .ok d
     | _, _ => .err "Invalid response structure: missing access_token or user")

/-! ## Login form submission (src/components/auth/LoginForm.tsx lines 24-69) -/

/-- The two login paths a submission can attempt. -/
inductive AttemptStep where
  | primaryAttempt
  | secondaryAttempt
deriving Repr, DecidableEq

/-- Outcome of one form submission: the attempts in the order they were
initiated, the navigation target on success, and the error shown on failure. -/
structure SubmitResult where
  attempts : List AttemptStep
  navigatedTo : Option String
  errorShown : Option String
deriving Repr, DecidableEq

/-- `handleSubmit` (LoginForm.tsx lines 24-69): await the regular login; only
when it reports failure, await the company login; when both fail, show
`companyResult.error || regularResult.error || default`.  The attempt list
records initiation order. -/
def handleSubmit (regularResult companyResult : LoginOutcome) : SubmitResult :=
  if regularResult.success then
    { attempts := [.primaryAttempt], navigatedTo := some "/dashboard", errorShown := none }
  else if companyResult.success then
    { attempts := [.primaryAttempt, .secondaryAttempt]
      navigatedTo := some "/dashboard", errorShown := none }
  else
    { attempts := [.primaryAttempt, .secondaryAttempt]
      navigatedTo := none
      errorShown := some (jsOrO companyResult.error
        (jsOrO regularResult.error "Login failed. Please check your credentials.")) }

/-! Concrete values used by witnesses and counterexamples. -/

/-- A backend profile that reports role "user". -/
def sampleBackendUser : UserResponse :=
  { id := 7, email := "dana@x.com", username := "dana", full_name := some "Dana"
    is_active := true, role := "user", can_assign_tasks := some false
    created_at := 0, last_login_at := some 5, avatar_url := some "a"
    company_id := some 3 }

/-- A well-formed company-login response whose profile claims role "user". -/
def sampleCompanyResponse : LoginResponse :=
  { access_token := some "t1", user := some sampleBackendUser }

/-- An arbitrary concrete prior client state. -/
def sampleClientState : ClientState :=
  { storage_access_token := some "old"
    storage_auth := some sampleUserU
    authState := sampleUserSession }

/-- Startup storage holding a serialized profile but no access token. -/
def profileOnlyState : ClientState :=
  { storage_access_token := none
    storage_auth := some sampleUserU
    authState := { user := none, isAuthenticated := false, isLoading := true } }

/-! ## Dashboard Aggregator (src/types/index.ts Dashboard components, src/services/api.ts getTaskStats)

Task fields follow the backend naming (`due_date`, `assigned_to`); the
front-end `Task` type spells them `dueDate` / `assignedTo` with the same
content. -/

/-- Task record, as filtered by the dashboard aggregations. -/
structure Task where
  id : Nat
  title : String
  status : String
  priority : String
  due_date : Option Nat
  assigned_to : String
  company_id : Option Nat
deriving Repr, DecidableEq

/-- Company record; the aggregations use only its count. -/
structure Company where
  id : Nat
  name : String
deriving Repr, DecidableEq

/-- `DashboardStats` (src/types/index.ts). -/
structure DashboardStats where
  totalUsers : Nat
  totalCompanies : Nat
  totalTasks : Nat
  pendingTasks : Nat
  completedTasks : Nat
  overdueTasks : Nat
  activeUsers : Nat
  inactiveUsers : Nat
deriving Repr, DecidableEq

/-- The overdue filter used by both Dashboard revisions (types/index.ts lines
257-262 and 1036-1040): no due date ⇒ not overdue; otherwise overdue when the
due date is strictly before now and the status is not "completed". -/
def dashboardOverdue (t : Task) (now : Nat) : Bool :=
  match t.due_date with
  | none => false
  | some d => decide (d < now) && !(t.status == "completed")

/-- `loadDashboardData` stats block of the first Dashboard revision
(types/index.ts lines 243-267): counters start at zero, `totalTasks` is the
full collection length, the three task filters run only on a nonempty
collection, and an "admin" viewer gets `totalCompanies = 1`. -/
def loadDashboardStats0 (tasks : List Task) (viewerRole : Option String) (now : Nat) :
    DashboardStats :=
  let newStats : DashboardStats :=
    { totalUsers := 0, totalCompanies := 0, totalTasks := tasks.length
      pendingTasks := 0, completedTasks := 0, overdueTasks := 0
      activeUsers := 0, inactiveUsers := 0 }
  let newStats :=
    if tasks.length > 0 then
      { newStats with
        pendingTasks :=
          (tasks.filter (fun t => t.status == "pending" || t.status == "in_progress")).length
        completedTasks := (tasks.filter (fun t => t.status == "completed")).length
        overdueTasks := (tasks.filter (fun t => dashboardOverdue t now)).length }
    else newStats
  if viewerRole == some "admin" then { newStats with totalCompanies := 1 } else newStats

/-- Overdue filter of `taskAPI.getTaskStats` (src/services/api.ts lines
630-634): short-circuits on a missing due date or a completed status, then
compares the due date with now. -/
def statsOverdue (t : Task) (now : Nat) : Bool :=
  match t.due_date with
  | none => false
  | some d => if t.status == "completed" then false else decide (d < now)

/-- Counters returned by `taskAPI.getTaskStats`. -/
structure TaskStats where
  total : Nat
  pending : Nat
  inProgress : Nat
  completed : Nat
  overdue : Nat
  highPriority : Nat
deriving Repr, DecidableEq

/-- `taskAPI.getTaskStats` (src/services/api.ts lines 621-650), applied to the
task list the backend returned. -/
def getTaskStats (tasks : List Task) (now : Nat) : TaskStats :=
  { total := tasks.length
    pending := (tasks.filter (fun t => t.status == "pending")).length
    inProgress := (tasks.filter (fun t => t.status == "in_progress")).length
    completed := (tasks.filter (fun t => t.status == "completed")).length
    overdue := (tasks.filter (fun t => statsOverdue t now)).length
    highPriority :=
      (tasks.filter (fun t => t.priority == "high" || t.priority == "urgent")).length }

/-- The spec's notion of an overdue task: the due date exists and is in the
past, and the task is not completed. -/
def SpecOverdue (t : Task) (now : Nat) : Prop :=
  (∃ d, t.due_date = some d ∧ d < now) ∧ t.status ≠ "completed"

/-- Modelled from the spec: `tasksAPI.getMyTasks` resolves on the out-of-scope
backend; §4.5 scopes the "user" role to "tasks where the caller is assignee". -/
def getMyTasks (allTasks : List Task) (callerId : String) : List Task :=
  allTasks.filter (fun t => t.assigned_to == callerId)

/-- Modelled from the spec: `tasksAPI.getAllTasks({ company_id })` resolves on
the out-of-scope backend; §4.5 scopes admin/company roles "to the caller's
company/tenant only". -/
def getAllTasksByCompany (allTasks : List Task) (cid : Option Nat) : List Task :=
  allTasks.filter (fun t => t.company_id == cid)

/-- Modelled from the spec: `usersAPI.getUsers({ company_id })` resolves on the
out-of-scope backend, returning the users of one company. -/
def getUsersByCompany (allUsers : List UserResponse) (cid : Option Nat) : List UserResponse :=
  allUsers.filter (fun u => u.company_id == cid)

/-- Task-fetch dispatch of the second Dashboard revision's `loadDashboardData`
(types/index.ts lines 953-1022): "admin" fetches everything; "company" fetches
its company's tasks; a dead "admin with company" branch repeats the company
fetch; every other role (including "user") fetches only its own tasks. -/
def dashboardFreshTasks (all : List Task) (u : User) : List Task :=
  if u.role == "admin" then all
  else if u.role == "company" then getAllTasksByCompany all u.company_id
  else if u.role == "admin" && u.company_id.isSome then getAllTasksByCompany all u.company_id
  else getMyTasks all u.id

/-- User-fetch dispatch of the same `loadDashboardData`: "admin" fetches all
users; the dead branch fetches company users; other roles leave the list
empty. -/
def dashboardCompanyUsers (allUsers : List UserResponse) (u : User) : List UserResponse :=
  if u.role == "admin" then allUsers
  else if u.role == "admin" && u.company_id.isSome then getUsersByCompany allUsers u.company_id
  else []

/-- The `newStats` record of the second Dashboard revision (types/index.ts
lines 1027-1046). -/
def mkNewStats (u : User) (freshTasks : List Task) (companyUsers : List UserResponse)
    (companyList : List Company) (now : Nat) : DashboardStats :=
  { totalCompanies := if u.role == "super_admin" then companyList.length else 0
    totalUsers :=
      if u.role == "super_admin" then companyUsers.length
      else if u.role == "admin" then companyUsers.length
      else 0
    totalTasks := freshTasks.length
    pendingTasks :=
      (freshTasks.filter (fun t => t.status == "pending" || t.status == "in_progress")).length
    completedTasks := (freshTasks.filter (fun t => t.status == "completed")).length
    overdueTasks := (freshTasks.filter (fun t => dashboardOverdue t now)).length
    activeUsers :=
      if u.role == "super_admin" || u.role == "admin"
      then (companyUsers.filter (fun x => x.is_active)).length else 0
    inactiveUsers :=
      if u.role == "super_admin" || u.role == "admin"
      then (companyUsers.filter (fun x => !x.is_active)).length else 0 }

/-- `loadDashboardData` of the second Dashboard revision (types/index.ts lines
943-1046): the "company" role computes its own stats block (lines 970-987) and
returns; every other role goes through the fetch dispatch and `mkNewStats`. -/
def loadDashboardStats (all : List Task) (allUsers : List UserResponse)
    (companies : List Company) (u : User) (now : Nat) : DashboardStats :=
  if u.role == "company" then
    let companyUsers := getUsersByCompany allUsers u.company_id
    let companyTasks := getAllTasksByCompany all u.company_id
    { totalCompanies := 1
      totalUsers := companyUsers.length
      totalTasks := companyTasks.length
      pendingTasks :=
        (companyTasks.filter (fun t => t.status == "pending" || t.status == "in_progress")).length
      completedTasks := (companyTasks.filter (fun t => t.status == "completed")).length
      overdueTasks := (companyTasks.filter (fun t => dashboardOverdue t now)).length
      activeUsers := (companyUsers.filter (fun x => x.is_active)).length
      inactiveUsers := (companyUsers.filter (fun x => !x.is_active)).length }
  else
    mkNewStats u (dashboardFreshTasks all u) (dashboardCompanyUsers allUsers u) companies now

/-- Concrete overdue pending task assigned to user "7". -/
def sampleTaskA : Task :=
  { id := 1, title := "a", status := "pending", priority := "high"
    due_date := some 5, assigned_to := "7", company_id := some 3 }

/-- Concrete overdue but completed task assigned to user "8". -/
def sampleTaskB : Task :=
  { id := 2, title := "b", status := "completed", priority := "low"
    due_date := some 4, assigned_to := "8", company_id := some 3 }

end TaskFlow

namespace TaskFlow

/-- C1: canAccessRoute is false for an unauthenticated session; true whenever the
route has no entry in ROUTE_ACCESS (fail-open); and when a rule exists, true
exactly when the session user's role belongs to the rule's allowed list. -/
theorem canAccessRoute_spec (s : AuthState) (route : String) :
    (s.user = none → canAccessRoute s route = false) ∧
    (∀ u : User, s.user = some u →
      (ROUTE_ACCESS.lookup route = none → canAccessRoute s route = true) ∧
      (∀ allowedRoles : List String, ROUTE_ACCESS.lookup route = some allowedRoles →
        (canAccessRoute s route = true ↔ u.role ∈ allowedRoles))) := by
  refine ⟨fun h => ?_, fun u hu => ⟨fun h => ?_, fun allowedRoles h => ?_⟩⟩
  · simp [canAccessRoute, h]
  · simp [canAccessRoute, hu, h]
  · simp [canAccessRoute, hu, h, List.contains_iff_exists_mem_beq, beq_iff_eq]

/-- C1 witness: a "user" session is denied "/users" (rule present, role absent)
and allowed an unmapped route (fail-open). -/
theorem canAccessRoute_spec_witness :
    canAccessRoute sampleUserSession "/users" = false ∧
    canAccessRoute sampleUserSession "/some/unmapped/route" = true := by
  constructor
  · have h := ((canAccessRoute_spec sampleUserSession "/users").2 sampleUserU rfl).2
      ["super_admin", "admin"] (by decide)
    cases hc : canAccessRoute sampleUserSession "/users" with
    | false => rfl
    | true => exact absurd (h.mp hc) (by decide)
  · exact ((canAccessRoute_spec sampleUserSession "/some/unmapped/route").2
      sampleUserU rfl).1 (by decide)

/-- C3: hasPermission is false for an unauthenticated session regardless of the
permission asked, and for an authenticated session it is true exactly when the
permission belongs to the static table's list for the user's role. -/
theorem hasPermission_spec (s : AuthState) (p : String) :
    (s.user = none → hasPermission s p = false) ∧
    (∀ u : User, s.user = some u →
      (hasPermission s p = true ↔ p ∈ rolePermsOf u.role)) := by
  refine ⟨fun h => ?_, fun u hu => ?_⟩
  · simp [hasPermission, h]
  · simp [hasPermission, hu, List.contains_iff_exists_mem_beq, beq_iff_eq]

/-- C3 witness: the "user" role holds view_own_tasks but not manage_companies,
and the unauthenticated session holds nothing. -/
theorem hasPermission_spec_witness :
    hasPermission sampleUserSession "view_own_tasks" = true ∧
    hasPermission sampleUserSession "manage_companies" = false ∧
    hasPermission unauthSession "view_dashboard" = false := by
  refine ⟨?_, ?_, ?_⟩
  · exact ((hasPermission_spec sampleUserSession "view_own_tasks").2
      sampleUserU rfl).mpr (by decide)
  · have h := (hasPermission_spec sampleUserSession "manage_companies").2 sampleUserU rfl
    cases hc : hasPermission sampleUserSession "manage_companies" with
    | false => rfl
    | true => exact absurd (h.mp hc) (by decide)
  · exact (hasPermission_spec unauthSession "view_dashboard").1 rfl

/-- C10: when the session user's role has no entry in ROLE_PERMISSIONS, the
lookup falls back to the empty list and hasPermission is false for every
permission name. -/
theorem hasPermission_missing_role (s : AuthState) (u : User) (p : String)
    (hu : s.user = some u) (hrole : ROLE_PERMISSIONS.lookup u.role = none) :
    hasPermission s p = false := by
  simp [hasPermission, hu, rolePermsOf, hrole]

/-- C10 witness: a session with the "company" role (absent from the table) has
no permissions at all, e.g. not even view_dashboard. -/
theorem hasPermission_missing_role_witness :
    hasPermission sampleCompanySession "view_dashboard" = false :=
  hasPermission_missing_role sampleCompanySession sampleCompanyU "view_dashboard"
    rfl (by decide)

/-- C2: whenever companyLogin reports success, the resulting session is
authenticated and its user's role is exactly "admin", whatever role the
backend profile carried. -/
theorem companyLogin_forces_admin (now : Nat) (response : ApiResult LoginResponse)
    (s : ClientState) (h : (companyLogin now response s).1.success = true) :
    ∃ u : User, (companyLogin now response s).2.authState.user = some u ∧
      u.role = "admin" ∧ (companyLogin now response s).2.authState.isAuthenticated = true := by
  cases response with
  | err m => simp [companyLogin] at h
  | ok r =>
    cases htok : r.access_token with
    | none => simp [companyLogin, htok] at h
    | some tok =>
      cases huser : r.user with
      | none => simp [companyLogin, htok, huser] at h
      | some u =>
        refine ⟨transformBackendUser now { u with role := "admin" }, ?_, rfl, ?_⟩
        · simp [companyLogin, htok, huser, commonLoginLogic]
        · simp [companyLogin, htok, huser, commonLoginLogic]

/-- C2 witness: a company login returning token "t1" and a profile of role
"user" succeeds and yields a session user with role "admin". -/
theorem companyLogin_forces_admin_witness :
    (companyLogin 0 (.ok sampleCompanyResponse) sampleClientState).1.success = true ∧
    ∃ u : User,
      (companyLogin 0 (.ok sampleCompanyResponse) sampleClientState).2.authState.user = some u ∧
      u.role = "admin" ∧
      (companyLogin 0 (.ok sampleCompanyResponse) sampleClientState).2.authState.isAuthenticated
        = true :=
  ⟨rfl, companyLogin_forces_admin 0 (.ok sampleCompanyResponse) sampleClientState rfl⟩

/-- C4: logout clears both durable storage slots, leaves the session
unauthenticated with no user, and navigates to the login entry point,
whatever the prior state was. -/
theorem logout_clears_everything (s : ClientState) :
    (logout s).1.storage_access_token = none ∧
    (logout s).1.storage_auth = none ∧
    (logout s).1.authState.user = none ∧
    (logout s).1.authState.isAuthenticated = false ∧
    (logout s).2 = "/login" :=
  ⟨rfl, rfl, rfl, rfl, rfl⟩

/-- C5 counterexample: with a stored profile but no access token, startup
initialization leaves the session unauthenticated with no user — the stored
profile is never trusted — whatever the backend would have answered. -/
theorem initAuth_profileOnly_counterexample :
    profileOnlyState.storage_auth = some sampleUserU ∧
    profileOnlyState.storage_access_token = none ∧
    (initAuth 0 (.err "unused") profileOnlyState).authState.isAuthenticated = false ∧
    (initAuth 0 (.err "unused") profileOnlyState).authState.user = none ∧
    (initAuth 0 (.ok sampleBackendUser) profileOnlyState).authState.isAuthenticated = false ∧
    (initAuth 0 (.ok sampleBackendUser) profileOnlyState).authState.user = none :=
  ⟨rfl, rfl, rfl, rfl, rfl, rfl⟩

/-- C5 amended: on startup, with no stored access token the session is left
unauthenticated regardless of any stored profile (which is ignored, not
trusted, and left in place); with a token, revalidation failure clears both
storage slots and yields an unauthenticated session, while success yields an
authenticated session from the fresh backend profile. -/
theorem initAuth_spec (now : Nat) (oracle : ApiResult UserResponse) (s : ClientState) :
    (s.storage_access_token = none →
      (initAuth now oracle s).authState.user = none ∧
      (initAuth now oracle s).authState.isAuthenticated = false ∧
      (initAuth now oracle s).storage_auth = s.storage_auth) ∧
    (∀ tok m, s.storage_access_token = some tok → oracle = .err m →
      (initAuth now oracle s).storage_access_token = none ∧
      (initAuth now oracle s).storage_auth = none ∧
      (initAuth now oracle s).authState.user = none ∧
      (initAuth now oracle s).authState.isAuthenticated = false) ∧
    (∀ tok resp, s.storage_access_token = some tok → oracle = .ok resp →
      (initAuth now oracle s).authState.user = some (transformBackendUser now resp) ∧
      (initAuth now oracle s).authState.isAuthenticated = true) := by
  refine ⟨fun h => ?_, fun tok m htok horacle => ?_, fun tok resp htok horacle => ?_⟩
  · simp [initAuth, h]
  · simp [initAuth, htok, horacle]
  · simp [initAuth, htok, horacle]

/-- C5 amended witness: the profile-only state stays unauthenticated, and a
token state whose revalidation fails loses its stored profile. -/
theorem initAuth_spec_witness :
    (initAuth 0 (.err "e") profileOnlyState).authState.isAuthenticated = false ∧
    (initAuth 0 (.err "boom") sampleClientState).storage_auth = none :=
  ⟨((initAuth_spec 0 (.err "e") profileOnlyState).1 rfl).2.1,
   ((initAuth_spec 0 (.err "boom") sampleClientState).2.1 "old" "boom" rfl rfl).2.1⟩

/-- C6 counterexample: a primary login for demoadmin@company.com with password
"any-password" issues a network request to /login like any other identity, and
when the backend rejects it (401) the login does not succeed — there is no
mock path that bypasses the network. -/
theorem demoadmin_login_counterexample :
    (authAPI_login "demoadmin@company.com" "any-password"
      (.err "Request failed with status code 401")).1 = ["/login"] ∧
    ((authAPI_login "demoadmin@company.com" "any-password"
      (.err "Request failed with status code 401")).2).isOk = false :=
  ⟨rfl, rfl⟩

/-- C6 amended: every primary login submission, demoadmin@company.com
included, issues exactly one network request to /login, and succeeds exactly
when the backend response carries both an access token and a user payload. -/
theorem authAPI_login_always_network (email password : String)
    (backend : ApiResult LoginResponse) :
    (authAPI_login email password backend).1 = ["/login"] ∧
    (((authAPI_login email password backend).2).isOk = true ↔
      ∃ d tok u, backend = .ok d ∧ d.access_token = some tok ∧ d.user = some u) := by
  refine ⟨rfl, ?_⟩
  cases backend with
  | err m => simp [authAPI_login, ApiResult.isOk]
  | ok d =>
    cases htok : d.access_token with
    | none => simp [authAPI_login, ApiResult.isOk, htok]
    | some tok =>
      cases huser : d.user with
      | none => simp [authAPI_login, ApiResult.isOk, htok, huser]
      | some u => simp [authAPI_login, ApiResult.isOk, htok, huser]

/-- C7: a task passes the overdue filters exactly when its due date exists,
is in the past, and its status is not "completed"; both dashboard revisions
and getTaskStats count overdue tasks by that same criterion. -/
theorem overdueTasks_spec (tasks : List Task) (now : Nat) (viewerRole : Option String) :
    (∀ t : Task, dashboardOverdue t now = true ↔ SpecOverdue t now) ∧
    (∀ t : Task, statsOverdue t now = true ↔ SpecOverdue t now) ∧
    (loadDashboardStats0 tasks viewerRole now).overdueTasks
      = (tasks.filter (fun t => dashboardOverdue t now)).length ∧
    (getTaskStats tasks now).overdue
      = (tasks.filter (fun t => dashboardOverdue t now)).length := by
  have hpred : ∀ t : Task, statsOverdue t now = dashboardOverdue t now := by
    intro t
    cases hd : t.due_date with
    | none => simp [statsOverdue, dashboardOverdue, hd]
    | some d =>
      by_cases hc : t.status == "completed" <;>
        simp [statsOverdue, dashboardOverdue, hd, hc, Bool.and_comm]
  refine ⟨?_, ?_, ?_, ?_⟩
  · intro t
    cases hd : t.due_date with
    | none => simp [dashboardOverdue, hd, SpecOverdue]
    | some d => simp [dashboardOverdue, hd, SpecOverdue]
  · intro t
    rw [hpred t]
    cases hd : t.due_date with
    | none => simp [dashboardOverdue, hd, SpecOverdue]
    | some d => simp [dashboardOverdue, hd, SpecOverdue]
  · cases tasks with
    | nil =>
      cases viewerRole <;>
        simp [loadDashboardStats0, apply_ite DashboardStats.overdueTasks]
    | cons a l =>
      cases viewerRole <;>
        simp [loadDashboardStats0, apply_ite DashboardStats.overdueTasks]
  · simp [getTaskStats, List.filter_congr fun t _ => hpred t]

/-- C8: for a "user"-role session, the second Dashboard revision's total-task
count equals (hence never exceeds) the number of tasks whose assignee is that
user's id. -/
theorem dashboard_user_totalTasks (all : List Task) (allUsers : List UserResponse)
    (companies : List Company) (u : User) (now : Nat) (hrole : u.role = "user") :
    (loadDashboardStats all allUsers companies u now).totalTasks
      = (all.filter (fun t => t.assigned_to == u.id)).length ∧
    (loadDashboardStats all allUsers companies u now).totalTasks
      ≤ (all.filter (fun t => t.assigned_to == u.id)).length := by
  have h : (loadDashboardStats all allUsers companies u now).totalTasks
      = (all.filter (fun t => t.assigned_to == u.id)).length := by
    simp [loadDashboardStats, dashboardFreshTasks, dashboardCompanyUsers, mkNewStats,
      getMyTasks, hrole]
  exact ⟨h, le_of_eq h⟩

/-- C8 witness: of two tasks where only the first is assigned to user "7",
the dashboard for that user counts exactly one task. -/
theorem dashboard_user_totalTasks_witness :
    (loadDashboardStats [sampleTaskA, sampleTaskB] [] [] sampleUserU 10).totalTasks = 1 := by
  have h := dashboard_user_totalTasks [sampleTaskA, sampleTaskB] [] [] sampleUserU 10 rfl
  rw [h.1]
  decide

/-- C9: within one form submission the primary login is attempted exactly
once; the secondary login is attempted exactly when the primary reported
failure, at most once, and strictly after the primary's result. -/
theorem handleSubmit_sequential (p q : LoginOutcome) :
    (p.success = true → (handleSubmit p q).attempts = [.primaryAttempt]) ∧
    (p.success = false →
      (handleSubmit p q).attempts = [.primaryAttempt, .secondaryAttempt]) ∧
    (handleSubmit p q).attempts.count .primaryAttempt = 1 ∧
    (handleSubmit p q).attempts.count .secondaryAttempt ≤ 1 ∧
    (AttemptStep.secondaryAttempt ∈ (handleSubmit p q).attempts ↔ p.success = false) := by
  refine ⟨fun h => ?_, fun h => ?_, ?_, ?_, ?_⟩
  · simp [handleSubmit, h]
  · by_cases hq : q.success = true <;> simp [handleSubmit, h, hq]
  · cases hp : p.success with
    | true => simp [handleSubmit, hp]
    | false =>
      by_cases hq : q.success = true <;> simp [handleSubmit, hp, hq]
  · cases hp : p.success with
    | true => simp [handleSubmit, hp]
    | false =>
      by_cases hq : q.success = true <;> simp [handleSubmit, hp, hq]
  · cases hp : p.success with
    | true => simp [handleSubmit, hp]
    | false =>
      by_cases hq : q.success = true <;> simp [handleSubmit, hp, hq]

/-- C9 witness: with a failed primary outcome and a successful secondary
outcome, the submission attempts primary then secondary, in that order. -/
theorem handleSubmit_sequential_witness :
    (handleSubmit ⟨false, some "401"⟩ ⟨true, none⟩).attempts
      = [.primaryAttempt, .secondaryAttempt] :=
  (handleSubmit_sequential ⟨false, some "401"⟩ ⟨true, none⟩).2.1 rfl

end TaskFlow
